import Mathlib

/-!
Shallow embedding of the kanban backend (`kanban/views.py` of
Template-FastApi-AQLAlchemy-PostgresSQL) in Lean 4.

The database is a triple of lists of records; a decoded JSON request body
is an association list from field names to string-or-null values; each
HTTP handler is a pure function from a database and a body (plus, for
creation, the freshly generated uuid and the current clock reading) to a
response paired with the resulting database.  The decorators
`required_fields` and `token_required` are modelled as wrapping
combinators, applied in Python's order (the `token_required` wrapper runs
first, then `required_fields`, then the handler).  An unhandled Python
exception (KeyError on `body[...]`, AttributeError on `None`) surfaces as
an HTTP 500, matching the spec's statement that unexpected failures
propagate as unhandled server errors.
-/

/-- A User row (`kanban/models.py` is not part of the sources; the fields
are modelled from the spec's data model: id, name, email, password
(hashed), photo (optional), created_at/update_at). -/
structure User where
  id : String
  name : String
  email : String
  password : String
  photo : Option String
  created_at : Nat
  update_at : Nat
deriving Repr, DecidableEq

/-- A CardCategory row (fields modelled from the spec's data model). -/
structure CardCategory where
  id : String
  name : String
  color : String
  user_id : String
  created_at : Nat
  update_at : Nat
deriving Repr, DecidableEq

/-- A Card row (fields modelled from the spec's data model). -/
structure Card where
  id : String
  title : String
  description : Option String
  status : String
  category_id : String
  user_id : String
  created_at : Nat
  update_at : Nat
deriving Repr, DecidableEq

/-- The relational store: one table per record kind. -/
structure DB where
  users : List User
  cards : List Card
  categories : List CardCategory
deriving Repr, DecidableEq

/-- A decoded JSON request body: field names mapped to a string value or
to JSON null (`none`). -/
abbrev Body := List (String × Option String)

/-- `body.get(field)`: `none` when the field is absent or its value is
JSON null, mirroring Python's `body.get(field) is None` test. -/
def getF (body : Body) (f : String) : Option String :=
  match body.find? (fun p => p.1 == f) with
  | none => none
  | some p => p.2

/-- Response payloads: serialized records (`to_dict`, modelled from the
spec as the full record) or an error object / detail string. -/
inductive Payload where
  | user (u : User)
  | card (c : Card)
  | cat (k : CardCategory)
  | cards (cs : List Card)
  | cats (ks : List CardCategory)
  | errorMsg (s : String)
deriving Repr, DecidableEq

/-- An HTTP response: status code and payload. -/
structure Resp where
  status : Nat
  payload : Payload
deriving Repr, DecidableEq

/-- The generic 500 produced by an unhandled exception inside a handler. -/
def serverError (db : DB) : Resp × DB :=
  (⟨500, .errorMsg "internal server error"⟩, db)

/-- `select(User).where(User.id == uid)` followed by `.first()`. -/
def findUser (db : DB) (uid : String) : Option User :=
  db.users.find? (fun u => u.id == uid)

/-- `session.get(Card, cid)`. -/
def findCard (db : DB) (cid : String) : Option Card :=
  db.cards.find? (fun c => c.id == cid)

/-- `session.get(CardCategory, kid)`. -/
def findCategory (db : DB) (kid : String) : Option CardCategory :=
  db.categories.find? (fun k => k.id == kid)

/-- The first field of `fields` that is absent or null in `body`
(the loop of the `required_fields` decorator). -/
def firstMissing (fields : List String) (body : Body) : Option String :=
  fields.find? (fun f => (getF body f).isNone)

/-- The `required_fields(*fields)` decorator: raise HTTP 400 naming the
first missing field, else call the wrapped handler unchanged. -/
def requiredFieldsWrap (fields : List String) (handler : DB → Body → Resp × DB)
    (db : DB) (body : Body) : Resp × DB :=
  match firstMissing fields body with
  | some f => (⟨400, .errorMsg ("required field \"" ++ f ++ "\"")⟩, db)
  | none => handler db body

/-- The `token_required` decorator: 400 when `user_id` is absent or null,
400 "invalid user_id" when no User has that id, else call the wrapped
handler. -/
def tokenRequiredWrap (handler : DB → Body → Resp × DB)
    (db : DB) (body : Body) : Resp × DB :=
  match getF body "user_id" with
  | none => (⟨400, .errorMsg "required field \"user_id\""⟩, db)
  | some uid =>
    match findUser db uid with
    | none => (⟨400, .errorMsg "invalid user_id"⟩, db)
    | some _ => handler db body

/-- Handler of GET /user. -/
def get_user_handler (db : DB) (body : Body) : Resp × DB :=
  match getF body "user_id" with
  | none => serverError db
  | some uid =>
    match findUser db uid with
    | none => serverError db
    | some u => (⟨200, .user u⟩, db)

/-- GET /user (with its `token_required` wrapper). -/
def get_user (db : DB) (body : Body) : Resp × DB :=
  tokenRequiredWrap get_user_handler db body

/-- bcrypt's `hashpw`.  Modelled from the spec: password hashing is
delegated to the bcrypt library (not part of the sources); the model
prefixes the salted plaintext with the bcrypt marker, keeping the two
properties the spec relies on: the result is a function of password and
salt, and it is never equal to the plaintext. -/
def hashpw (password salt : String) : String :=
  "$2b$" ++ salt ++ "$" ++ password

/-- Handler of POST /user: hash the password, insert a fresh User. -/
def create_user_handler (db : DB) (body : Body) (freshId salt : String)
    (now : Nat) : Resp × DB :=
  match getF body "name", getF body "email", getF body "password" with
  | some name, some email, some password =>
    let u : User :=
      { id := freshId, name := name, email := email,
        password := hashpw password salt, photo := getF body "photo",
        created_at := now, update_at := now }
    (⟨200, .user u⟩, { db with users := db.users ++ [u] })
  | _, _, _ => serverError db

/-- POST /user (with its `required_fields('name','email','password')`
wrapper; no `token_required`). -/
def create_user (db : DB) (body : Body) (freshId salt : String)
    (now : Nat) : Resp × DB :=
  requiredFieldsWrap ["name", "email", "password"]
    (fun db body => create_user_handler db body freshId salt now) db body

/-- Handler of PUT /user: load the caller's User, overwrite name,
password (hashed), email, photo (from `body.get`, so null when absent),
bump `update_at`. -/
def update_user_handler (db : DB) (body : Body) (salt : String)
    (now : Nat) : Resp × DB :=
  match getF body "user_id" with
  | none => serverError db
  | some uid =>
    match findUser db uid with
    | none => serverError db
    | some user =>
      match getF body "name", getF body "password", getF body "email" with
      | some name, some password, some email =>
        let u : User :=
          { user with name := name, password := hashpw password salt,
                      email := email, photo := getF body "photo", update_at := now }
        (⟨200, .user u⟩,
         { db with users := db.users.map (fun v => if v.id == user.id then u else v) })
      | _, _, _ => serverError db

/-- PUT /user (wrapped by `token_required` then
`required_fields('name','password','email')`). -/
def update_user (db : DB) (body : Body) (salt : String) (now : Nat) : Resp × DB :=
  tokenRequiredWrap
    (fun db body => requiredFieldsWrap ["name", "password", "email"]
      (fun db body => update_user_handler db body salt now) db body) db body

/-- Handler of DELETE /user: load the caller's User, delete it, return
its last representation. -/
def delete_user_handler (db : DB) (body : Body) : Resp × DB :=
  match getF body "user_id" with
  | none => serverError db
  | some uid =>
    match findUser db uid with
    | none => serverError db
    | some u =>
      (⟨200, .user u⟩, { db with users := db.users.filter (fun v => ! (v.id == u.id)) })

/-- DELETE /user (with its `token_required` wrapper). -/
def delete_user (db : DB) (body : Body) : Resp × DB :=
  tokenRequiredWrap delete_user_handler db body

/-- Handler of GET /card: all Cards owned by the caller. -/
def get_cards_handler (db : DB) (body : Body) : Resp × DB :=
  match getF body "user_id" with
  | none => serverError db
  | some uid =>
    match findUser db uid with
    | none => serverError db
    | some u => (⟨200, .cards (db.cards.filter (fun c => c.user_id == u.id))⟩, db)

/-- GET /card (with its `token_required` wrapper). -/
def get_cards (db : DB) (body : Body) : Resp × DB :=
  tokenRequiredWrap get_cards_handler db body

/-- Handler of GET /card/{card_id}: 200 when the card exists and is
owned by the caller, 404 otherwise. -/
def get_card_handler (db : DB) (body : Body) (card_id : String) : Resp × DB :=
  match getF body "user_id" with
  | none => serverError db
  | some uid =>
    match findCard db card_id with
    | some card =>
      match findUser db uid with
      | none => serverError db
      | some u =>
        if card.user_id == u.id then (⟨200, .card card⟩, db)
        else (⟨404, .errorMsg "card not found"⟩, db)
    | none => (⟨404, .errorMsg "card not found"⟩, db)

/-- GET /card/{card_id} (with its `token_required` wrapper). -/
def get_card (db : DB) (body : Body) (card_id : String) : Resp × DB :=
  tokenRequiredWrap (fun db body => get_card_handler db body card_id) db body

/-- Handler of POST /card: 400 "invalid category_id" when the referenced
CardCategory does not exist, else insert a fresh Card owned by the
caller. -/
def create_card_handler (db : DB) (body : Body) (freshId : String)
    (now : Nat) : Resp × DB :=
  match getF body "user_id" with
  | none => serverError db
  | some uid =>
    match getF body "category_id" with
    | none => serverError db
    | some catId =>
      match findCategory db catId with
      | none => (⟨400, .errorMsg "invalid category_id"⟩, db)
      | some category =>
        match getF body "status", getF body "title", findUser db uid with
        | some status, some title, some user =>
          let c : Card :=
            { status := status, title := title,
              description := getF body "description",
              category_id := category.id, id := freshId, user_id := user.id,
              created_at := now, update_at := now }
          (⟨200, .card c⟩, { db with cards := db.cards ++ [c] })
        | _, _, _ => serverError db

/-- POST /card (wrapped by `token_required` then
`required_fields('title','category_id','status')`). -/
def create_card (db : DB) (body : Body) (freshId : String) (now : Nat) : Resp × DB :=
  tokenRequiredWrap
    (fun db body => requiredFieldsWrap ["title", "category_id", "status"]
      (fun db body => create_card_handler db body freshId now) db body) db body

/-- Handler of PUT /card: load the Card by the body's `id` (no ownership
check), overwrite status, title, description (from `body.get`, so null
when absent), category_id, bump `update_at`; 404 when not found. -/
def update_card_handler (db : DB) (body : Body) (now : Nat) : Resp × DB :=
  match getF body "id" with
  | none => serverError db
  | some cid =>
    match findCard db cid with
    | some card =>
      match getF body "status", getF body "title", getF body "category_id" with
      | some status, some title, some catId =>
        let c : Card :=
          { card with status := status, title := title,
                      description := getF body "description", update_at := now,
                      category_id := catId }
        (⟨200, .card c⟩,
         { db with cards := db.cards.map (fun x => if x.id == card.id then c else x) })
      | _, _, _ => serverError db
    | none => (⟨404, .errorMsg "card not found"⟩, db)

/-- PUT /card (wrapped by `token_required` then
`required_fields('id','status','title','category_id')`). -/
def update_card (db : DB) (body : Body) (now : Nat) : Resp × DB :=
  tokenRequiredWrap
    (fun db body => requiredFieldsWrap ["id", "status", "title", "category_id"]
      (fun db body => update_card_handler db body now) db body) db body

/-- Handler of DELETE /card: load the Card by the body's `id` (no
ownership check), delete it, return its last representation; 404 when
not found. -/
def delete_card_handler (db : DB) (body : Body) : Resp × DB :=
  match getF body "id" with
  | none => serverError db
  | some cid =>
    match findCard db cid with
    | none => (⟨404, .errorMsg "card not found"⟩, db)
    | some card =>
      (⟨200, .card card⟩,
       { db with cards := db.cards.filter (fun x => ! (x.id == card.id)) })

/-- DELETE /card (wrapped by `token_required` then
`required_fields('id')`). -/
def delete_card (db : DB) (body : Body) : Resp × DB :=
  tokenRequiredWrap
    (fun db body => requiredFieldsWrap ["id"] delete_card_handler db body) db body

/-- Handler of GET /card-category: all CardCategories owned by the
caller. -/
def get_cards_categories_handler (db : DB) (body : Body) : Resp × DB :=
  match getF body "user_id" with
  | none => serverError db
  | some uid =>
    match findUser db uid with
    | none => serverError db
    | some u =>
      (⟨200, .cats (db.categories.filter (fun k => k.user_id == u.id))⟩, db)

/-- GET /card-category (with its `token_required` wrapper). -/
def get_cards_categories (db : DB) (body : Body) : Resp × DB :=
  tokenRequiredWrap get_cards_categories_handler db body

/-- Handler of GET /card-category/{card_category_id}: 200 when the
category exists and is owned by the caller, 404 otherwise. -/
def get_card_category_handler (db : DB) (body : Body)
    (card_category_id : String) : Resp × DB :=
  match getF body "user_id" with
  | none => serverError db
  | some uid =>
    match findCategory db card_category_id with
    | some k =>
      match findUser db uid with
      | none => serverError db
      | some u =>
        if k.user_id == u.id then (⟨200, .cat k⟩, db)
        else (⟨404, .errorMsg "card category not found"⟩, db)
    | none => (⟨404, .errorMsg "card category not found"⟩, db)

/-- GET /card-category/{card_category_id} (with its `token_required`
wrapper). -/
def get_card_category (db : DB) (body : Body) (card_category_id : String) : Resp × DB :=
  tokenRequiredWrap (fun db body => get_card_category_handler db body card_category_id)
    db body

/-- Handler of POST /card-category: insert a fresh CardCategory owned by
the caller. -/
def create_card_category_handler (db : DB) (body : Body) (freshId : String)
    (now : Nat) : Resp × DB :=
  match getF body "user_id" with
  | none => serverError db
  | some uid =>
    match getF body "name", getF body "color", findUser db uid with
    | some name, some color, some user =>
      let k : CardCategory :=
        { name := name, color := color, user_id := user.id, id := freshId,
          created_at := now, update_at := now }
      (⟨200, .cat k⟩, { db with categories := db.categories ++ [k] })
    | _, _, _ => serverError db

/-- POST /card-category (wrapped by `token_required` then
`required_fields('name','color')`). -/
def create_card_category (db : DB) (body : Body) (freshId : String)
    (now : Nat) : Resp × DB :=
  tokenRequiredWrap
    (fun db body => requiredFieldsWrap ["name", "color"]
      (fun db body => create_card_category_handler db body freshId now) db body)
    db body

/-- Handler of PUT /card-category: load the CardCategory by the body's
`category_id` (no ownership check), overwrite name and color, bump
`update_at`; 404 when not found. -/
def update_card_category_handler (db : DB) (body : Body) (now : Nat) : Resp × DB :=
  match getF body "category_id" with
  | none => serverError db
  | some kid =>
    match findCategory db kid with
    | some k =>
      match getF body "name", getF body "color" with
      | some name, some color =>
        let k2 : CardCategory := { k with name := name, color := color, update_at := now }
        (⟨200, .cat k2⟩,
         { db with categories :=
            db.categories.map (fun x => if x.id == k.id then k2 else x) })
      | _, _ => serverError db
    | none => (⟨404, .errorMsg "card category not found"⟩, db)

/-- PUT /card-category (wrapped by `token_required` then
`required_fields('category_id','name','color')`). -/
def update_card_category (db : DB) (body : Body) (now : Nat) : Resp × DB :=
  tokenRequiredWrap
    (fun db body => requiredFieldsWrap ["category_id", "name", "color"]
      (fun db body => update_card_category_handler db body now) db body) db body

/-- Handler of DELETE /card-category: load the CardCategory by the
body's `category_id` (no ownership check), delete it, return its last
representation; 404 when not found. -/
def delete_card_category_handler (db : DB) (body : Body) : Resp × DB :=
  match getF body "category_id" with
  | none => serverError db
  | some kid =>
    match findCategory db kid with
    | none => (⟨404, .errorMsg "card category not found"⟩, db)
    | some k =>
      (⟨200, .cat k⟩,
       { db with categories := db.categories.filter (fun x => ! (x.id == k.id)) })

/-- DELETE /card-category (wrapped by `token_required` then
`required_fields('category_id')`). -/
def delete_card_category (db : DB) (body : Body) : Resp × DB :=
  tokenRequiredWrap
    (fun db body => requiredFieldsWrap ["category_id"] delete_card_category_handler
      db body) db body

/-! ## Concrete sample data for witnesses and counterexamples -/

/-- A sample user owning the sample card and category. -/
def sampleUser : User := ⟨"u1", "ana", "ana@mail.com", "hash", none, 0, 0⟩

/-- A second sample user, owner of nothing. -/
def sampleUser2 : User := ⟨"u2", "bob", "bob@mail.com", "hash2", none, 0, 0⟩

/-- A sample category owned by `sampleUser`. -/
def sampleCategory : CardCategory := ⟨"k1", "todo-list", "red", "u1", 0, 0⟩

/-- A sample card owned by `sampleUser`, with a non-null description. -/
def sampleCard : Card := ⟨"c1", "write spec", some "keep me", "todo", "k1", "u1", 0, 0⟩

/-- The sample database. -/
def sampleDB : DB := ⟨[sampleUser, sampleUser2], [sampleCard], [sampleCategory]⟩

/-- A PUT /card body that omits `description`. -/
def putCardBody : Body :=
  [("user_id", some "u1"), ("id", some "c1"), ("status", some "doing"),
   ("title", some "write proofs"), ("category_id", some "k1")]

/-- A DELETE /card-category body carrying the target id in the field
`id` (as the spec's "analogous to Card" wording would have it). -/
def deleteCategoryIdBody : Body :=
  [("user_id", some "u1"), ("id", some "k1")]

/-- A PUT /card-category body renaming the sample category. -/
def putCategoryBody : Body :=
  [("user_id", some "u1"), ("category_id", some "k1"),
   ("name", some "later"), ("color", some "blue")]

/-- A DELETE /card-category body carrying the target id in the field
`category_id`, as the code requires. -/
def deleteCategoryBody : Body :=
  [("user_id", some "u1"), ("category_id", some "k1")]

/-- A POST /card body referencing the sample category. -/
def createCardBody : Body :=
  [("user_id", some "u2"), ("title", some "new card"),
   ("category_id", some "k1"), ("status", some "todo")]

/-- A POST /card body referencing a nonexistent category. -/
def createCardBadBody : Body :=
  [("user_id", some "u2"), ("title", some "new card"),
   ("category_id", some "nope"), ("status", some "todo")]

/-- A DELETE /card body targeting the sample card. -/
def deleteCardBody : Body :=
  [("user_id", some "u1"), ("id", some "c1")]

/-- A body holding only a `user_id`, as GET requests use. -/
def getOnlyBody : Body :=
  [("user_id", some "u1")]

/-- A POST /card-category body. -/
def createCategoryBody : Body :=
  [("user_id", some "u1"), ("name", some "doing-list"), ("color", some "green")]

/-- A POST /user body. -/
def createUserBody : Body :=
  [("name", some "carol"), ("email", some "carol@mail.com"),
   ("password", some "pw123")]

/-! ## Helper lemmas -/

/-- A user found by id has that id. -/
theorem findUser_id {db : DB} {uid : String} {u : User}
    (h : findUser db uid = some u) : u.id = uid := by
  unfold findUser at h
  have h2 := List.find?_some h
  simpa [beq_iff_eq] using h2

/-- A card found by id has that id. -/
theorem findCard_id {db : DB} {cid : String} {c : Card}
    (h : findCard db cid = some c) : c.id = cid := by
  unfold findCard at h
  have h2 := List.find?_some h
  simpa [beq_iff_eq] using h2

/-- A category found by id has that id. -/
theorem findCategory_id {db : DB} {kid : String} {k : CardCategory}
    (h : findCategory db kid = some k) : k.id = kid := by
  unfold findCategory at h
  have h2 := List.find?_some h
  simpa [beq_iff_eq] using h2

/-- `find?` over an append, when the first part has no hit. -/
theorem find?_append_none {α : Type} {l1 : List α} {p : α → Bool}
    (h : l1.find? p = none) (l2 : List α) :
    (l1 ++ l2).find? p = l2.find? p := by
  rw [List.find?_append, h, Option.none_or]

/-- C1: the `token_required` wrapper fails with 400 naming `user_id` when
the body lacks `user_id`, fails with 400 "invalid user_id" when no User
has the given id (hence every token-guarded endpoint answers 400 then),
and otherwise passes control to the wrapped handler. -/
theorem token_required_contract (h : DB → Body → Resp × DB) (db : DB) (body : Body) :
    (getF body "user_id" = none →
      tokenRequiredWrap h db body = (⟨400, .errorMsg "required field \"user_id\""⟩, db))
  ∧ (∀ uid, getF body "user_id" = some uid → findUser db uid = none →
      tokenRequiredWrap h db body = (⟨400, .errorMsg "invalid user_id"⟩, db))
  ∧ (∀ uid u, getF body "user_id" = some uid → findUser db uid = some u →
      tokenRequiredWrap h db body = h db body)
  ∧ (∀ uid, getF body "user_id" = some uid → findUser db uid = none →
      ∀ rid freshId salt now,
        (get_user db body).1.status = 400
      ∧ (update_user db body salt now).1.status = 400
      ∧ (delete_user db body).1.status = 400
      ∧ (get_cards db body).1.status = 400
      ∧ (get_card db body rid).1.status = 400
      ∧ (create_card db body freshId now).1.status = 400
      ∧ (update_card db body now).1.status = 400
      ∧ (delete_card db body).1.status = 400
      ∧ (get_cards_categories db body).1.status = 400
      ∧ (get_card_category db body rid).1.status = 400
      ∧ (create_card_category db body freshId now).1.status = 400
      ∧ (update_card_category db body now).1.status = 400
      ∧ (delete_card_category db body).1.status = 400) := by
  refine ⟨fun h0 => ?_, fun uid h1 h2 => ?_, fun uid u h1 h2 => ?_, fun uid h1 h2 rid freshId salt now => ?_⟩
  · simp [tokenRequiredWrap, h0]
  · simp [tokenRequiredWrap, h1, h2]
  · simp [tokenRequiredWrap, h1, h2]
  · refine ⟨?_, ?_, ?_, ?_, ?_, ?_, ?_, ?_, ?_, ?_, ?_, ?_, ?_⟩ <;>
      simp [get_user, update_user, delete_user, get_cards, get_card, create_card,
        update_card, delete_card, get_cards_categories, get_card_category,
        create_card_category, update_card_category, delete_card_category,
        tokenRequiredWrap, h1, h2]

/-- Witness for `token_required_contract`: on the sample database, a
body naming a nonexistent user gets 400 "invalid user_id". -/
theorem token_required_contract_witness :
    tokenRequiredWrap get_user_handler sampleDB [("user_id", some "ghost")] =
      (⟨400, .errorMsg "invalid user_id"⟩, sampleDB) :=
  (token_required_contract get_user_handler sampleDB [("user_id", some "ghost")]).2.1
    "ghost" (by simp [getF]) (by simp [findUser, sampleDB, sampleUser, sampleUser2])

/-- C2: the `required_fields` wrapper fails with 400 naming the first
field, in declared order, that is absent or null in the body; when every
required field is present it passes control to the wrapped handler with
the database and body unchanged. -/
theorem required_fields_contract (fields : List String)
    (h : DB → Body → Resp × DB) (db : DB) (body : Body) :
    (∀ pre f post, fields = pre ++ f :: post →
       (∀ g ∈ pre, (getF body g).isSome) → getF body f = none →
       requiredFieldsWrap fields h db body =
         (⟨400, .errorMsg ("required field \"" ++ f ++ "\"")⟩, db))
  ∧ ((∀ f ∈ fields, (getF body f).isSome) →
       requiredFieldsWrap fields h db body = h db body) := by
  constructor
  · intro pre f post hsplit hpre hf
    have hnone : pre.find? (fun g => (getF body g).isNone) = none := by
      rw [List.find?_eq_none]
      intro g hg
      simpa [Option.isNone_iff_eq_none, ← Option.isSome_iff_ne_none] using hpre g hg
    have : firstMissing fields body = some f := by
      rw [firstMissing, hsplit, find?_append_none hnone, List.find?_cons]
      simp [hf]
    simp [requiredFieldsWrap, this]
  · intro hall
    have : firstMissing fields body = none := by
      rw [firstMissing, List.find?_eq_none]
      intro g hg
      simpa [Option.isNone_iff_eq_none, ← Option.isSome_iff_ne_none] using hall g hg
    simp [requiredFieldsWrap, this]

/-- Witness for `required_fields_contract`: with required fields
`name`, `color` and a body supplying only `name`, the wrapper answers
400 naming `color`. -/
theorem required_fields_contract_witness :
    requiredFieldsWrap ["name", "color"] get_user_handler sampleDB
      [("name", some "x")] =
      (⟨400, .errorMsg "required field \"color\""⟩, sampleDB) :=
  (required_fields_contract ["name", "color"] get_user_handler sampleDB
      [("name", some "x")]).1 ["name"] "color" [] rfl
    (by simp [getF]) (by simp [getF])

/-- C3: for an authenticated user u, GET /card/{id} and
GET /card-category/{id} answer 200 with the record when it exists and its
`user_id` equals u's id, and 404 when it does not exist or is owned by a
different user. -/
theorem get_by_id_ownership (db : DB) (body : Body) (uid : String) (u : User)
    (huid : getF body "user_id" = some uid) (hu : findUser db uid = some u) :
    (∀ rid c, findCard db rid = some c → c.user_id = u.id →
        get_card db body rid = (⟨200, .card c⟩, db))
  ∧ (∀ rid, findCard db rid = none →
        get_card db body rid = (⟨404, .errorMsg "card not found"⟩, db))
  ∧ (∀ rid c, findCard db rid = some c → c.user_id ≠ u.id →
        get_card db body rid = (⟨404, .errorMsg "card not found"⟩, db))
  ∧ (∀ rid k, findCategory db rid = some k → k.user_id = u.id →
        get_card_category db body rid = (⟨200, .cat k⟩, db))
  ∧ (∀ rid, findCategory db rid = none →
        get_card_category db body rid = (⟨404, .errorMsg "card category not found"⟩, db))
  ∧ (∀ rid k, findCategory db rid = some k → k.user_id ≠ u.id →
        get_card_category db body rid = (⟨404, .errorMsg "card category not found"⟩, db)) := by
  refine ⟨fun rid c hrec hown => ?_, fun rid hrec => ?_, fun rid c hrec hown => ?_,
          fun rid k hrec hown => ?_, fun rid hrec => ?_, fun rid k hrec hown => ?_⟩
  · simp [get_card, tokenRequiredWrap, get_card_handler, huid, hu, hrec, hown]
  · simp [get_card, tokenRequiredWrap, get_card_handler, huid, hu, hrec]
  · simp [get_card, tokenRequiredWrap, get_card_handler, huid, hu, hrec,
      beq_iff_eq, hown]
  · simp [get_card_category, tokenRequiredWrap, get_card_category_handler,
      huid, hu, hrec, hown]
  · simp [get_card_category, tokenRequiredWrap, get_card_category_handler,
      huid, hu, hrec]
  · simp [get_card_category, tokenRequiredWrap, get_card_category_handler,
      huid, hu, hrec, beq_iff_eq, hown]

/-- Witness for `get_by_id_ownership`: on the sample database, the second
user fetching the first user's card gets 404. -/
theorem get_by_id_ownership_witness :
    get_card sampleDB [("user_id", some "u2")] "c1" =
      (⟨404, .errorMsg "card not found"⟩, sampleDB) :=
  (get_by_id_ownership sampleDB [("user_id", some "u2")] "u2" sampleUser2
      (by simp [getF])
      (by simp [findUser, sampleDB, sampleUser, sampleUser2])).2.2.1 "c1" sampleCard
    (by simp [findCard, sampleDB, sampleCard])
    (by simp [sampleCard, sampleUser2])

/-- C4: PUT /card, DELETE /card, PUT /card-category and
DELETE /card-category perform no ownership check: for an authenticated
caller and an existing record owned by a different user, each operation
still answers 200 and mutates or removes the record. -/
theorem no_ownership_check_put_delete (db : DB) (body : Body) (uid : String)
    (u : User) (now : Nat)
    (huid : getF body "user_id" = some uid) (hu : findUser db uid = some u) :
    (∀ cid card s t kid, getF body "id" = some cid → getF body "status" = some s →
       getF body "title" = some t → getF body "category_id" = some kid →
       findCard db cid = some card → card.user_id ≠ u.id →
       (update_card db body now).1.status = 200 ∧
       (update_card db body now).2.cards =
         db.cards.map (fun x => if x.id == card.id then
           { card with status := s, title := t,
                       description := getF body "description",
                       update_at := now, category_id := kid } else x))
  ∧ (∀ cid card, getF body "id" = some cid → findCard db cid = some card →
       card.user_id ≠ u.id →
       (delete_card db body).1.status = 200 ∧
       (delete_card db body).2.cards = db.cards.filter (fun x => ! (x.id == card.id)))
  ∧ (∀ kid k nm col, getF body "category_id" = some kid → getF body "name" = some nm →
       getF body "color" = some col →
       findCategory db kid = some k → k.user_id ≠ u.id →
       (update_card_category db body now).1.status = 200 ∧
       (update_card_category db body now).2.categories =
         db.categories.map (fun x => if x.id == k.id then
           { k with name := nm, color := col, update_at := now } else x))
  ∧ (∀ kid k, getF body "category_id" = some kid → findCategory db kid = some k →
       k.user_id ≠ u.id →
       (delete_card_category db body).1.status = 200 ∧
       (delete_card_category db body).2.categories =
         db.categories.filter (fun x => ! (x.id == k.id))) := by
  refine ⟨fun cid card s t kid hcid hs ht hkid hcard hown => ?_,
          fun cid card hcid hcard hown => ?_,
          fun kid k nm col hkid hnm hcol hk hown => ?_,
          fun kid k hkid hk hown => ?_⟩
  · constructor <;>
      simp [update_card, tokenRequiredWrap, requiredFieldsWrap, firstMissing,
        List.find?, update_card_handler, huid, hu, hcid, hs, ht, hkid, hcard]
  · constructor <;>
      simp [delete_card, tokenRequiredWrap, requiredFieldsWrap, firstMissing,
        List.find?, delete_card_handler, huid, hu, hcid, hcard]
  · constructor <;>
      simp [update_card_category, tokenRequiredWrap, requiredFieldsWrap, firstMissing,
        List.find?, update_card_category_handler, huid, hu, hkid, hnm, hcol, hk]
  · constructor <;>
      simp [delete_card_category, tokenRequiredWrap, requiredFieldsWrap, firstMissing,
        List.find?, delete_card_category_handler, huid, hu, hkid, hk]

/-- Witness for `no_ownership_check_put_delete`: on the sample database,
the second user deletes the first user's card and gets 200, the card
gone. -/
theorem no_ownership_check_put_delete_witness :
    (delete_card sampleDB [("user_id", some "u2"), ("id", some "c1")]).1.status = 200 ∧
    (delete_card sampleDB [("user_id", some "u2"), ("id", some "c1")]).2.cards = [] :=
  have h := (no_ownership_check_put_delete sampleDB
      [("user_id", some "u2"), ("id", some "c1")] "u2" sampleUser2 0
      (by simp [getF])
      (by simp [findUser, sampleDB, sampleUser, sampleUser2])).2.1 "c1" sampleCard
      (by simp [getF])
      (by simp [findCard, sampleDB, sampleCard])
      (by simp [sampleCard, sampleUser2])
  ⟨h.1, by simpa [sampleDB, sampleCard] using h.2⟩

/-- C5, counterexample: PUT /card with the `description` field absent
does not leave the card's description unchanged — the handler overwrites
it with null (`card.description = body.get('description')`), so "mutates
exactly the fields provided, leaving fields not provided unchanged"
fails on `sampleDB` with `putCardBody`. -/
theorem update_card_overwrites_absent_description :
    getF putCardBody "description" = none ∧
    (findCard sampleDB "c1").map Card.description = some (some "keep me") ∧
    (update_card sampleDB putCardBody 7).1.status = 200 ∧
    (findCard (update_card sampleDB putCardBody 7).2 "c1").map Card.description =
      some none := by
  refine ⟨rfl, rfl, rfl, rfl⟩

/-- C5, amended: PUT loads the record by id (404 if absent), overwrites
the required fields with the body's values, overwrites the optional field
(Card.description, User.photo) with the body's value — null when absent —
bumps `update_at`, keeps id, user_id and created_at, leaves all other
records and tables unchanged, and returns the updated record. -/
theorem put_mutation_spec (db : DB) (body : Body) (uid : String) (u : User)
    (salt : String) (now : Nat)
    (huid : getF body "user_id" = some uid) (hu : findUser db uid = some u) :
    (∀ cid s t kid card, getF body "id" = some cid → getF body "status" = some s →
       getF body "title" = some t → getF body "category_id" = some kid →
       findCard db cid = some card →
       update_card db body now =
         (⟨200, .card { card with status := s, title := t,
                                  description := getF body "description",
                                  update_at := now, category_id := kid }⟩,
          { db with cards := db.cards.map (fun x => if x.id == card.id then
              { card with status := s, title := t,
                          description := getF body "description",
                          update_at := now, category_id := kid } else x) }))
  ∧ (∀ cid s t kid, getF body "id" = some cid → getF body "status" = some s →
       getF body "title" = some t → getF body "category_id" = some kid →
       findCard db cid = none →
       update_card db body now = (⟨404, .errorMsg "card not found"⟩, db))
  ∧ (∀ kid nm col k, getF body "category_id" = some kid → getF body "name" = some nm →
       getF body "color" = some col → findCategory db kid = some k →
       update_card_category db body now =
         (⟨200, .cat { k with name := nm, color := col, update_at := now }⟩,
          { db with categories := db.categories.map (fun x => if x.id == k.id then
              { k with name := nm, color := col, update_at := now } else x) }))
  ∧ (∀ kid nm col, getF body "category_id" = some kid → getF body "name" = some nm →
       getF body "color" = some col → findCategory db kid = none →
       update_card_category db body now = (⟨404, .errorMsg "card category not found"⟩, db))
  ∧ (∀ nm pw em, getF body "name" = some nm → getF body "password" = some pw →
       getF body "email" = some em →
       update_user db body salt now =
         (⟨200, .user { u with name := nm, password := hashpw pw salt, email := em,
                               photo := getF body "photo", update_at := now }⟩,
          { db with users := db.users.map (fun v => if v.id == u.id then
              { u with name := nm, password := hashpw pw salt, email := em,
                       photo := getF body "photo", update_at := now } else v) })) := by
  refine ⟨fun cid s t kid card hcid hs ht hkid hcard => ?_,
          fun cid s t kid hcid hs ht hkid hcard => ?_,
          fun kid nm col k hkid hnm hcol hk => ?_,
          fun kid nm col hkid hnm hcol hk => ?_,
          fun nm pw em hnm hpw hem => ?_⟩
  · simp [update_card, tokenRequiredWrap, requiredFieldsWrap, firstMissing,
      List.find?, update_card_handler, huid, hu, hcid, hs, ht, hkid, hcard]
  · simp [update_card, tokenRequiredWrap, requiredFieldsWrap, firstMissing,
      List.find?, update_card_handler, huid, hu, hcid, hs, ht, hkid, hcard]
  · simp [update_card_category, tokenRequiredWrap, requiredFieldsWrap, firstMissing,
      List.find?, update_card_category_handler, huid, hu, hkid, hnm, hcol, hk]
  · simp [update_card_category, tokenRequiredWrap, requiredFieldsWrap, firstMissing,
      List.find?, update_card_category_handler, huid, hu, hkid, hnm, hcol, hk]
  · simp [update_user, tokenRequiredWrap, requiredFieldsWrap, firstMissing,
      List.find?, update_user_handler, huid, hu, hnm, hpw, hem]

/-- Witness for `put_mutation_spec`: renaming the sample category
through PUT /card-category on the sample database. -/
theorem put_mutation_spec_witness :
    update_card_category sampleDB putCategoryBody 9 =
      (⟨200, .cat ⟨"k1", "later", "blue", "u1", 0, 9⟩⟩,
       ⟨[sampleUser, sampleUser2], [sampleCard],
        [⟨"k1", "later", "blue", "u1", 0, 9⟩]⟩) := by
  have h := (put_mutation_spec sampleDB putCategoryBody "u1" sampleUser "s" 9
      (by simp [getF, putCategoryBody])
      (by simp [findUser, sampleDB, sampleUser])).2.2.1 "k1" "later" "blue"
      sampleCategory
      (by simp [getF, putCategoryBody])
      (by simp [getF, putCategoryBody])
      (by simp [getF, putCategoryBody])
      (by simp [findCategory, sampleDB, sampleCategory])
  simpa [sampleDB, sampleCategory, sampleUser, sampleUser2, sampleCard] using h

/-- C6, counterexample: DELETE /card-category does not accept the target
id in a body field named `id`: on the sample database, where a category
with id "k1" exists, a DELETE body carrying `id` (as DELETE /card uses)
is rejected with 400 naming `category_id`, not answered with 200. -/
theorem delete_card_category_rejects_id_field :
    findCategory sampleDB "k1" = some sampleCategory ∧
    delete_card_category sampleDB deleteCategoryIdBody =
      (⟨400, .errorMsg "required field \"category_id\""⟩, sampleDB) := by
  refine ⟨rfl, rfl⟩

/-- C6, amended: the /card-category write endpoints parallel the /card
ones except that the target record's id is carried in the body field
named `category_id` (not `id`): PUT /card-category requires category_id,
name and color, DELETE /card-category requires category_id (plus
user_id); each answers 200 with the record on success, 404 when no
category with that id exists, and 400 naming `category_id` when that
field is absent or null. -/
theorem card_category_id_field_contract (db : DB) (body : Body) (uid : String)
    (u : User) (now : Nat)
    (huid : getF body "user_id" = some uid) (hu : findUser db uid = some u) :
    (getF body "category_id" = none →
       update_card_category db body now =
         (⟨400, .errorMsg "required field \"category_id\""⟩, db)
     ∧ delete_card_category db body =
         (⟨400, .errorMsg "required field \"category_id\""⟩, db))
  ∧ (∀ kid nm col k, getF body "category_id" = some kid → getF body "name" = some nm →
       getF body "color" = some col → findCategory db kid = some k →
       update_card_category db body now =
         (⟨200, .cat { k with name := nm, color := col, update_at := now }⟩,
          { db with categories := db.categories.map (fun x => if x.id == k.id then
              { k with name := nm, color := col, update_at := now } else x) }))
  ∧ (∀ kid nm col, getF body "category_id" = some kid → getF body "name" = some nm →
       getF body "color" = some col → findCategory db kid = none →
       update_card_category db body now =
         (⟨404, .errorMsg "card category not found"⟩, db))
  ∧ (∀ kid k, getF body "category_id" = some kid → findCategory db kid = some k →
       delete_card_category db body =
         (⟨200, .cat k⟩,
          { db with categories := db.categories.filter (fun x => ! (x.id == k.id)) }))
  ∧ (∀ kid, getF body "category_id" = some kid → findCategory db kid = none →
       delete_card_category db body =
         (⟨404, .errorMsg "card category not found"⟩, db)) := by
  refine ⟨fun h0 => ⟨?_, ?_⟩,
          fun kid nm col k hkid hnm hcol hk => ?_,
          fun kid nm col hkid hnm hcol hk => ?_,
          fun kid k hkid hk => ?_,
          fun kid hkid hk => ?_⟩
  · simp [update_card_category, tokenRequiredWrap, requiredFieldsWrap, firstMissing,
      List.find?, huid, hu, h0]
  · simp [delete_card_category, tokenRequiredWrap, requiredFieldsWrap, firstMissing,
      List.find?, huid, hu, h0]
  · simp [update_card_category, tokenRequiredWrap, requiredFieldsWrap, firstMissing,
      List.find?, update_card_category_handler, huid, hu, hkid, hnm, hcol, hk]
  · simp [update_card_category, tokenRequiredWrap, requiredFieldsWrap, firstMissing,
      List.find?, update_card_category_handler, huid, hu, hkid, hnm, hcol, hk]
  · simp [delete_card_category, tokenRequiredWrap, requiredFieldsWrap, firstMissing,
      List.find?, delete_card_category_handler, huid, hu, hkid, hk]
  · simp [delete_card_category, tokenRequiredWrap, requiredFieldsWrap, firstMissing,
      List.find?, delete_card_category_handler, huid, hu, hkid, hk]

/-- Witness for `card_category_id_field_contract`: deleting the sample
category with the id carried in `category_id` answers 200. -/
theorem card_category_id_field_contract_witness :
    delete_card_category sampleDB deleteCategoryBody =
      (⟨200, .cat sampleCategory⟩,
       ⟨[sampleUser, sampleUser2], [sampleCard], []⟩) := by
  have h := (card_category_id_field_contract sampleDB deleteCategoryBody "u1"
      sampleUser 0
      (by simp [getF, deleteCategoryBody])
      (by simp [findUser, sampleDB, sampleUser])).2.2.2.1 "k1" sampleCategory
      (by simp [getF, deleteCategoryBody])
      (by simp [findCategory, sampleDB, sampleCategory])
  simpa [sampleDB, sampleCategory, sampleUser, sampleUser2, sampleCard] using h

/-- C7: POST /card by an authenticated user with title, category_id and
status present answers 400 "invalid category_id" leaving the database
unchanged when the referenced category does not exist; otherwise it
inserts and returns a new card with the freshly generated id, referencing
that category and owned by the requesting user. -/
theorem create_card_spec (db : DB) (body : Body) (uid : String) (u : User)
    (freshId : String) (now : Nat)
    (huid : getF body "user_id" = some uid) (hu : findUser db uid = some u) :
    ∀ t kid s, getF body "title" = some t → getF body "category_id" = some kid →
      getF body "status" = some s →
      (findCategory db kid = none →
         create_card db body freshId now = (⟨400, .errorMsg "invalid category_id"⟩, db))
    ∧ (∀ k, findCategory db kid = some k →
         create_card db body freshId now =
           (⟨200, .card { status := s, title := t,
                          description := getF body "description",
                          category_id := k.id, id := freshId, user_id := u.id,
                          created_at := now, update_at := now }⟩,
            { db with cards := db.cards ++
                [{ status := s, title := t,
                   description := getF body "description",
                   category_id := k.id, id := freshId, user_id := u.id,
                   created_at := now, update_at := now }] })) := by
  intro t kid s ht hkid hs
  constructor
  · intro hk
    simp [create_card, tokenRequiredWrap, requiredFieldsWrap, firstMissing,
      List.find?, create_card_handler, huid, hu, ht, hkid, hs, hk]
  · intro k hk
    simp [create_card, tokenRequiredWrap, requiredFieldsWrap, firstMissing,
      List.find?, create_card_handler, huid, hu, ht, hkid, hs, hk]

/-- Witness for `create_card_spec`: posting a card with a nonexistent
category on the sample database answers 400 "invalid category_id". -/
theorem create_card_spec_witness :
    create_card sampleDB createCardBadBody "c9" 3 =
      (⟨400, .errorMsg "invalid category_id"⟩, sampleDB) :=
  ((create_card_spec sampleDB createCardBadBody "u2" sampleUser2 "c9" 3
      (by simp [getF, createCardBadBody])
      (by simp [findUser, sampleDB, sampleUser, sampleUser2])) "new card" "nope" "todo"
      (by simp [getF, createCardBadBody])
      (by simp [getF, createCardBadBody])
      (by simp [getF, createCardBadBody])).1
    (by simp [findCategory, sampleDB, sampleCategory])

/-- C8: DELETE /card loads the card by id, removes it and returns its
last representation (404 when absent), and after a successful delete a
GET /card/{id} for the same id, by any authenticated user, answers
404. -/
theorem delete_card_then_get (db : DB) (body1 : Body) (uid1 : String) (u1 : User)
    (cid : String)
    (h1 : getF body1 "user_id" = some uid1) (hu1 : findUser db uid1 = some u1)
    (hcid : getF body1 "id" = some cid) :
    (findCard db cid = none →
       delete_card db body1 = (⟨404, .errorMsg "card not found"⟩, db))
  ∧ (∀ card, findCard db cid = some card →
       delete_card db body1 =
         (⟨200, .card card⟩,
          { db with cards := db.cards.filter (fun x => ! (x.id == card.id)) })
     ∧ ∀ body2 uid2 u2, getF body2 "user_id" = some uid2 →
         findUser (delete_card db body1).2 uid2 = some u2 →
         get_card (delete_card db body1).2 body2 cid =
           (⟨404, .errorMsg "card not found"⟩, (delete_card db body1).2)) := by
  constructor
  · intro hnone
    simp [delete_card, tokenRequiredWrap, requiredFieldsWrap, firstMissing,
      List.find?, delete_card_handler, h1, hu1, hcid, hnone]
  · intro card hcard
    have hdel : delete_card db body1 =
        (⟨200, .card card⟩,
         { db with cards := db.cards.filter (fun x => ! (x.id == card.id)) }) := by
      simp [delete_card, tokenRequiredWrap, requiredFieldsWrap, firstMissing,
        List.find?, delete_card_handler, h1, hu1, hcid, hcard]
    refine ⟨hdel, fun body2 uid2 u2 h2 hu2 => ?_⟩
    have hid : card.id = cid := findCard_id hcard
    have hgone : findCard (delete_card db body1).2 cid = none := by
      rw [hdel]
      unfold findCard
      rw [List.find?_eq_none]
      intro x hx
      have hmem := List.mem_filter.mp hx
      have hne : (x.id == card.id) = false := by
        simpa using hmem.2
      simp [hid] at hne
      simp [hne]
    rw [hdel] at hu2 hgone ⊢
    simp [get_card, tokenRequiredWrap, get_card_handler, h2, hu2, hgone]

/-- Witness for `delete_card_then_get`: deleting the sample card and
fetching it again on the sample database answers 404. -/
theorem delete_card_then_get_witness :
    delete_card sampleDB deleteCardBody =
      (⟨200, .card sampleCard⟩, ⟨[sampleUser, sampleUser2], [], [sampleCategory]⟩) ∧
    get_card (delete_card sampleDB deleteCardBody).2 getOnlyBody "c1" =
      (⟨404, .errorMsg "card not found"⟩, (delete_card sampleDB deleteCardBody).2) := by
  have h := ((delete_card_then_get sampleDB deleteCardBody "u1" sampleUser "c1"
      (by simp [getF, deleteCardBody])
      (by simp [findUser, sampleDB, sampleUser])
      (by simp [getF, deleteCardBody])).2 sampleCard
      (by simp [findCard, sampleDB, sampleCard]))
  refine ⟨?_, h.2 getOnlyBody "u1" sampleUser (by simp [getF, getOnlyBody]) ?_⟩
  · simpa [sampleDB, sampleCard, sampleUser, sampleUser2, sampleCategory] using h.1
  · rw [h.1]
    simp [findUser, sampleDB, sampleUser]

/-- C9: POST /card-category with name and color present inserts a
category with the fresh id, the posted name and color, owned by the
requesting user, and a subsequent GET /card-category/{id} by the same
user for the returned id answers 200 with that same record. -/
theorem post_category_then_get (db : DB) (body : Body) (uid : String) (u : User)
    (freshId : String) (now : Nat) (nm col : String)
    (huid : getF body "user_id" = some uid) (hu : findUser db uid = some u)
    (hnm : getF body "name" = some nm) (hcol : getF body "color" = some col)
    (hfresh : findCategory db freshId = none) :
    create_card_category db body freshId now =
      (⟨200, .cat ⟨freshId, nm, col, u.id, now, now⟩⟩,
       { db with categories := db.categories ++ [⟨freshId, nm, col, u.id, now, now⟩] })
  ∧ ∀ body2, getF body2 "user_id" = some uid →
      get_card_category (create_card_category db body freshId now).2 body2 freshId =
        (⟨200, .cat ⟨freshId, nm, col, u.id, now, now⟩⟩,
         (create_card_category db body freshId now).2) := by
  have hpost : create_card_category db body freshId now =
      (⟨200, .cat ⟨freshId, nm, col, u.id, now, now⟩⟩,
       { db with categories := db.categories ++ [⟨freshId, nm, col, u.id, now, now⟩] }) := by
    simp [create_card_category, tokenRequiredWrap, requiredFieldsWrap, firstMissing,
      List.find?, create_card_category_handler, huid, hu, hnm, hcol]
  refine ⟨hpost, fun body2 h2 => ?_⟩
  have hfound : findCategory (create_card_category db body freshId now).2 freshId =
      some ⟨freshId, nm, col, u.id, now, now⟩ := by
    rw [hpost]
    unfold findCategory at hfresh ⊢
    rw [find?_append_none hfresh]
    simp [List.find?]
  have husers : findUser (create_card_category db body freshId now).2 uid = some u := by
    rw [hpost]
    simpa [findUser] using hu
  rw [hpost] at hfound husers ⊢
  simp [get_card_category, tokenRequiredWrap, get_card_category_handler,
    h2, husers, hfound]

/-- Witness for `post_category_then_get`: posting then fetching a
category on the sample database. -/
theorem post_category_then_get_witness :
    get_card_category (create_card_category sampleDB createCategoryBody "k2" 4).2
        getOnlyBody "k2" =
      (⟨200, .cat ⟨"k2", "doing-list", "green", "u1", 4, 4⟩⟩,
       (create_card_category sampleDB createCategoryBody "k2" 4).2) :=
  (post_category_then_get sampleDB createCategoryBody "u1" sampleUser "k2" 4
      "doing-list" "green"
      (by simp [getF, createCategoryBody])
      (by simp [findUser, sampleDB, sampleUser])
      (by simp [getF, createCategoryBody])
      (by simp [getF, createCategoryBody])
      (by simp [findCategory, sampleDB, sampleCategory])).2 getOnlyBody
    (by simp [getF, getOnlyBody])

/-- C10: POST /user with name, email and password present answers 200
with the created record; the stored and returned password field is the
bcrypt hash of the submitted password, which is never the submitted
plaintext. -/
theorem create_user_hashes_password (db : DB) (body : Body)
    (freshId salt : String) (now : Nat) (nm em pw : String)
    (hn : getF body "name" = some nm) (he : getF body "email" = some em)
    (hp : getF body "password" = some pw) :
    create_user db body freshId salt now =
      (⟨200, .user ⟨freshId, nm, em, hashpw pw salt, getF body "photo", now, now⟩⟩,
       { db with users := db.users ++
          [⟨freshId, nm, em, hashpw pw salt, getF body "photo", now, now⟩] })
  ∧ hashpw pw salt ≠ pw := by
  constructor
  · simp [create_user, requiredFieldsWrap, firstMissing, List.find?,
      create_user_handler, hn, he, hp]
  · intro hcontra
    have hl := congrArg String.length hcontra
    have h4 : ("$2b$" : String).length = 4 := rfl
    have hone : ("$" : String).length = 1 := rfl
    simp [hashpw, String.length_append, h4, hone] at hl

/-- Witness for `create_user_hashes_password`: creating a user on the
sample database stores the hash, not the plaintext. -/
theorem create_user_hashes_password_witness :
    create_user sampleDB createUserBody "u3" "ss" 6 =
      (⟨200, .user ⟨"u3", "carol", "carol@mail.com", "$2b$ss$pw123", none, 6, 6⟩⟩,
       ⟨[sampleUser, sampleUser2,
         ⟨"u3", "carol", "carol@mail.com", "$2b$ss$pw123", none, 6, 6⟩],
        [sampleCard], [sampleCategory]⟩) ∧
    ("$2b$ss$pw123" : String) ≠ "pw123" := by
  have h := create_user_hashes_password sampleDB createUserBody "u3" "ss" 6
      "carol" "carol@mail.com" "pw123"
      (by simp [getF, createUserBody])
      (by simp [getF, createUserBody])
      (by simp [getF, createUserBody])
  constructor
  · have h1 := h.1
    simpa [sampleDB, sampleUser, sampleUser2, sampleCard, sampleCategory,
      hashpw, getF, createUserBody] using h1
  · have h2 := h.2
    simp only [hashpw] at h2
    exact h2
